import Mathlib

/-!
Verification of cryptoticker (src/main.rs) against its specification.

The embedding models the cache-validated fetch component and the render
loop: `Currency` is the serde data shape, `fetch_ticker`, the resolver
block of `print_ticker`, and one pass of `main`'s loop are embedded as
pure state-passing functions.  Machine effects are made explicit:
the filesystem is a finite map from paths to cache entries, the network
is a function from URLs to responses, network calls are logged in a
`calls` list, and a Rust panic is a distinct outcome `panicked`.
Debug-diagnostic prints are not modelled; `out` records only the
rendered ticker tokens and error reporting of the main loop.
-/

namespace Cryptoticker

/-- The serde data shape `Currency` from main.rs lines 55-75.  Field
`volume_usd_24h` carries the serde rename to JSON key `24h_volume_usd`. -/
structure Currency where
  id : String
  name : String
  symbol : String
  rank : String
  price_usd : Option String
  price_btc : Option String
  volume_usd_24h : Option String
  market_cap_usd : Option String
  available_supply : Option String
  total_supply : Option String
  percent_change_1 : Option String
  percent_change_24 : Option String
  percent_change_7 : Option String
  last_updated : Option String
deriving DecidableEq, Repr

/-- A JSON value as it occurs in a serialized `Currency`: every field is a
string or null. -/
inductive JsonVal where
  | str (s : String)
  | null
deriving DecidableEq, Repr

/-- A JSON object: association list from keys to values. -/
abbrev JsonObj := List (String × JsonVal)

/-- serde serialization of an `Option String` field: `None` becomes JSON
null (the derive has no skip-serializing attribute). -/
def optField (v : Option String) : JsonVal :=
  match v with
  | some s => JsonVal.str s
  | none => JsonVal.null

/-- `serde_json::to_writer` on a `Currency`: all fields emitted in
declaration order, with the rename `24h_volume_usd`. -/
def currencyToJson (c : Currency) : JsonObj :=
  [ ("id", JsonVal.str c.id),
    ("name", JsonVal.str c.name),
    ("symbol", JsonVal.str c.symbol),
    ("rank", JsonVal.str c.rank),
    ("price_usd", optField c.price_usd),
    ("price_btc", optField c.price_btc),
    ("24h_volume_usd", optField c.volume_usd_24h),
    ("market_cap_usd", optField c.market_cap_usd),
    ("available_supply", optField c.available_supply),
    ("total_supply", optField c.total_supply),
    ("percent_change_1", optField c.percent_change_1),
    ("percent_change_24", optField c.percent_change_24),
    ("percent_change_7", optField c.percent_change_7),
    ("last_updated", optField c.last_updated) ]

/-- First value bound to a key in a JSON object. -/
def lookupField : JsonObj → String → Option JsonVal
  | [], _ => none
  | (k, v) :: rest, q => if k == q then some v else lookupField rest q

/-- serde deserialization of a required `String` field: must be present
and a string. -/
def reqString (j : JsonObj) (k : String) : Option String :=
  match lookupField j k with
  | some (JsonVal.str s) => some s
  | _ => none

/-- serde deserialization of an `Option String` field: a string gives
`some`, null gives `none`, and a missing key also gives `none` (serde's
default for `Option` fields). -/
def optString (j : JsonObj) (k : String) : Option String :=
  match lookupField j k with
  | some (JsonVal.str s) => some s
  | _ => none

/-- `serde_json::from_reader`-style decoding of a JSON object into a
`Currency`; fails exactly when a required field is absent or non-string. -/
def currencyFromJson (j : JsonObj) : Option Currency :=
  match reqString j "id", reqString j "name",
        reqString j "symbol", reqString j "rank" with
  | some i, some n, some s, some r =>
    some { id := i, name := n, symbol := s, rank := r,
           price_usd := optString j "price_usd",
           price_btc := optString j "price_btc",
           volume_usd_24h := optString j "24h_volume_usd",
           market_cap_usd := optString j "market_cap_usd",
           available_supply := optString j "available_supply",
           total_supply := optString j "total_supply",
           percent_change_1 := optString j "percent_change_1",
           percent_change_24 := optString j "percent_change_24",
           percent_change_7 := optString j "percent_change_7",
           last_updated := optString j "last_updated" }
  | _, _, _, _ => none

theorem currencyFromJson_currencyToJson (c : Currency) :
    currencyFromJson (currencyToJson c) = some c := by
  obtain ⟨i, n, s, r, p1, p2, v, m, a, t, q1, q2, q3, l⟩ := c
  cases p1 <;> cases p2 <;> cases v <;> cases m <;> cases a <;> cases t <;>
    cases q1 <;> cases q2 <;> cases q3 <;> cases l <;> rfl

/-- What a cache file holds: either content that parses as a JSON object,
or content that is not valid JSON at all (`msg` stands for the serde
error text wrapped into `StrError`). -/
inductive FileData where
  | text (j : JsonObj)
  | malformed (msg : String)
deriving DecidableEq, Repr

/-- A cache file together with its filesystem metadata.  `elapsed` models
`metadata.modified().unwrap().elapsed()` in nanoseconds: `some n` is
`Ok(duration)`, `none` is `Err(SystemTimeError)` — the modification time
lies in the future relative to now. -/
structure CacheEntry where
  data : FileData
  elapsed : Option Nat
deriving DecidableEq, Repr

/-- The cache directory's contents: paths mapped to cache entries.
`fs::metadata` succeeds exactly on present paths. -/
abbrev FS := List (String × CacheEntry)

def fsLookup : FS → String → Option CacheEntry
  | [], _ => none
  | (p, e) :: rest, q => if p == q then some e else fsLookup rest q

/-- `fs::File::create` + `serde_json::to_writer`: create-or-truncate the
path with the serialized record; the fresh file's age is 0. -/
def fsWrite : FS → String → Currency → FS
  | [], p, c => [(p, ⟨FileData.text (currencyToJson c), some 0⟩)]
  | (q, e) :: rest, p, c =>
    if q == p then (p, ⟨FileData.text (currencyToJson c), some 0⟩) :: rest
    else (q, e) :: fsWrite rest p c

/-- The HTTP response body, after `serde_json::from_str::<Vec<Currency>>`:
either not decodable as such a vector (`invalid`, carrying the error
text), or the decoded list. -/
inductive Body where
  | invalid (msg : String)
  | arr (items : List Currency)
deriving DecidableEq, Repr

/-- Reading the response body with `read_to_string`: an io error or the
body. -/
inductive BodyRead where
  | ioErr (msg : String)
  | got (b : Body)
deriving DecidableEq, Repr

/-- The outcome of one `reqwest::get`: a transport error from `get`
itself, or a response with its status-success bit and its body. -/
inductive HttpResp where
  | transportErr (msg : String)
  | resp (isSuccess : Bool) (body : BodyRead)
deriving DecidableEq, Repr

/-- The remote API: URL to response.  The program is single-threaded, so
one pass sees a fixed function. -/
abbrev Net := String → HttpResp

/-- Outcome of a fallible Rust computation: `Ok`, `Err(StrError)` (the
error's wrapped string), or a panic aborting the process. -/
inductive RunResult (α : Type) where
  | ok (a : α)
  | err (e : String)
  | panicked
deriving DecidableEq, Repr

/-- Result of a fetch/resolve step: its outcome, the cache directory
afterwards, and the URLs requested over the network (in order). -/
structure FetchOut where
  result : RunResult Currency
  fs : FS
  calls : List String
deriving DecidableEq, Repr

def baseUrl : String := "https://api.coinmarketcap.com/v1/ticker/"

/-- `fetch_ticker` (main.rs lines 77-107).  `reqwest::get(url)` is always
issued once; a non-success status yields the "not valid" error; the body
is decoded as a `Vec<Currency>`; `tickers.remove(0)` on an empty vector
panics (index out of bounds); with `Some(cache_file)` the decoded record
is written through to the cache before being returned. -/
def fetch_ticker (net : Net) (name : String) (cache_file : Option String)
    (fs : FS) : FetchOut :=
  let url := baseUrl ++ name
  match net url with
  | HttpResp.transportErr msg => ⟨RunResult.err msg, fs, [url]⟩
  | HttpResp.resp isSuccess body =>
    if !isSuccess then
      ⟨RunResult.err ("Ticker ID " ++ name ++ " not valid."), fs, [url]⟩
    else
      match body with
      | BodyRead.ioErr msg => ⟨RunResult.err msg, fs, [url]⟩
      | BodyRead.got (Body.invalid msg) => ⟨RunResult.err msg, fs, [url]⟩
      | BodyRead.got (Body.arr []) => ⟨RunResult.panicked, fs, [url]⟩
      | BodyRead.got (Body.arr (ticker :: _)) =>
        match cache_file with
        | none => ⟨RunResult.ok ticker, fs, [url]⟩
        | some path => ⟨RunResult.ok ticker, fsWrite fs path ticker, [url]⟩

/-- `Duration::from_secs(1800)`, the 30-minute TTL, in nanoseconds. -/
def ttl : Nat := 1800 * 1000000000

/-- `cache_dir.join(format!(..))`: the per-asset cache path. -/
def cachePath (cacheDir name : String) : String :=
  cacheDir ++ "/" ++ name ++ ".json"

/-- Error text standing for the `serde_json` message produced when a cache
file parses as JSON but not as a `Currency`. -/
def missingFieldMsg : String := "missing required field"

/-- The ticker-resolution block of `print_ticker` (main.rs lines
114-138): with `cache` false, fetch directly with no cache path; with
`cache` true, consult the file's metadata — a readable age below the TTL
reads and decodes the cached file (a decode failure propagates as an
error), while a stale age, an age-computation error, or a missing file
all fall to `fetch_ticker` with the cache path for write-through. -/
def resolve_ticker (net : Net) (cacheDir name : String) (cache : Bool)
    (fs : FS) : FetchOut :=
  if !cache then fetch_ticker net name none fs
  else
    let cache_file := cachePath cacheDir name
    match fsLookup fs cache_file with
    | some entry =>
      match entry.elapsed with
      | some elapsed =>
        if elapsed < ttl then
          match entry.data with
          | FileData.malformed msg => ⟨RunResult.err msg, fs, []⟩
          | FileData.text j =>
            match currencyFromJson j with
            | some c => ⟨RunResult.ok c, fs, []⟩
            | none => ⟨RunResult.err missingFieldMsg, fs, []⟩
        else fetch_ticker net name (some cache_file) fs
      | none => fetch_ticker net name (some cache_file) fs
    | none => fetch_ticker net name (some cache_file) fs

/-- The `short_name` computation of `print_ticker` (lines 142-149). -/
def short_name (name : String) : String :=
  if name == "ethereum" then "eth"
  else if name == "bitcoin" then "btc"
  else name

/-- Result of a rendering step: outcome, cache state, network calls, and
the text written to stdout (ticker tokens and error reporting only). -/
structure RenderOut where
  result : RunResult Unit
  fs : FS
  calls : List String
  out : String
deriving DecidableEq, Repr

/-- `print_ticker` (lines 109-154): resolve, then print
`"{short_name}:{price} "` with `price_usd.unwrap_or("null")`; errors
propagate to the caller with nothing printed. -/
def print_ticker (net : Net) (cacheDir name : String) (cache : Bool)
    (fs : FS) : RenderOut :=
  match resolve_ticker net cacheDir name cache fs with
  | ⟨RunResult.ok ticker, fs', calls⟩ =>
    ⟨RunResult.ok (), fs', calls,
      short_name name ++ ":" ++ ticker.price_usd.getD "null" ++ " "⟩
  | ⟨RunResult.err e, fs', calls⟩ => ⟨RunResult.err e, fs', calls, ""⟩
  | ⟨RunResult.panicked, fs', calls⟩ => ⟨RunResult.panicked, fs', calls, ""⟩

/-- One asset of `main`'s loop body (line 201-205):
`print_ticker(arg, !interval, debug)` with its `Err` mapped to printing —
the raw error with a newline in debug mode, the `"{arg}:error "`
placeholder otherwise — and then discarded, so the loop continues. -/
def renderAsset (net : Net) (cacheDir arg : String) (interval debug : Bool)
    (fs : FS) : RenderOut :=
  match print_ticker net cacheDir arg (!interval) fs with
  | ⟨RunResult.ok _, fs', calls, out⟩ => ⟨RunResult.ok (), fs', calls, out⟩
  | ⟨RunResult.err e, fs', calls, _⟩ =>
    ⟨RunResult.ok (), fs', calls,
      if debug then e ++ "\n" else arg ++ ":error "⟩
  | ⟨RunResult.panicked, fs', calls, out⟩ =>
    ⟨RunResult.panicked, fs', calls, out⟩

/-- One full pass of `main`'s loop (lines 200-206) over the requested
asset list.  A panic aborts the process mid-pass; otherwise every asset
is processed in order and outputs are concatenated. -/
def renderPass (net : Net) (cacheDir : String) (interval debug : Bool) :
    List String → FS → RenderOut
  | [], fs => ⟨RunResult.ok (), fs, [], ""⟩
  | arg :: rest, fs =>
    match renderAsset net cacheDir arg interval debug fs with
    | ⟨RunResult.panicked, fs', calls, out⟩ =>
      ⟨RunResult.panicked, fs', calls, out⟩
    | ⟨_, fs', calls, out⟩ =>
      let r := renderPass net cacheDir interval debug rest fs'
      ⟨r.result, r.fs, calls ++ r.calls, out ++ r.out⟩

/-! Concrete fixtures used by counterexamples and witnesses. -/

/-- A bitcoin record with USD price "1". -/
def recA : Currency :=
  ⟨"bitcoin", "Bitcoin", "BTC", "1", some "1", none, none, none, none,
    none, none, none, none, none⟩

/-- The same record with USD price "2", to distinguish cache from net. -/
def recB : Currency := { recA with price_usd := some "2" }

/-- An API that answers every URL with a one-element array holding
`recB`. -/
def netGood : Net :=
  fun _ => HttpResp.resp true (BodyRead.got (Body.arr [recB]))

/-- An API that answers with HTTP 200 and the body `[]`. -/
def netEmpty : Net :=
  fun _ => HttpResp.resp true (BodyRead.got (Body.arr []))

/-- An API that answers with HTTP 200 and a body that is not a JSON
array of records. -/
def netInvalid : Net :=
  fun _ => HttpResp.resp true (BodyRead.got (Body.invalid "expected value"))

/-- An API that answers every URL with a non-success status. -/
def net404 : Net :=
  fun _ => HttpResp.resp false (BodyRead.got (Body.invalid "irrelevant"))

/-- A network on which `reqwest::get` itself fails. -/
def netDown : Net := fun _ => HttpResp.transportErr "connection refused"

def dir0 : String := "cache"

/-- A cache holding a fresh, valid record for bitcoin. -/
def fsHit : FS :=
  [(cachePath dir0 "bitcoin", ⟨FileData.text (currencyToJson recA), some 0⟩)]

/-- A cache holding a fresh but corrupt file for bitcoin. -/
def fsCorrupt : FS :=
  [(cachePath dir0 "bitcoin", ⟨FileData.malformed "bad json", some 0⟩)]

/-- A cache whose bitcoin file reports a modification time in the
future (`elapsed()` fails). -/
def fsSkew : FS :=
  [(cachePath dir0 "bitcoin", ⟨FileData.text (currencyToJson recA), none⟩)]

/-! Helper lemmas shared between claims. -/

/-- `fetch_ticker` issues exactly one network request, to the ticker URL
for the asset, in every outcome. -/
theorem fetch_ticker_calls (net : Net) (name : String)
    (cf : Option String) (fs : FS) :
    (fetch_ticker net name cf fs).calls = [baseUrl ++ name] := by
  cases hn : net (baseUrl ++ name) with
  | transportErr msg => simp [fetch_ticker, hn]
  | resp isSuccess body =>
    cases isSuccess with
    | false => simp [fetch_ticker, hn]
    | true =>
      cases body with
      | ioErr msg => simp [fetch_ticker, hn]
      | got b =>
        cases b with
        | invalid msg => simp [fetch_ticker, hn]
        | arr items =>
          cases items with
          | nil => simp [fetch_ticker, hn]
          | cons t r => cases cf <;> simp [fetch_ticker, hn]

/-- With no cache path, `fetch_ticker` never writes to the filesystem. -/
theorem fetch_ticker_none_fs (net : Net) (name : String) (fs : FS) :
    (fetch_ticker net name none fs).fs = fs := by
  cases hn : net (baseUrl ++ name) with
  | transportErr msg => simp [fetch_ticker, hn]
  | resp isSuccess body =>
    cases isSuccess with
    | false => simp [fetch_ticker, hn]
    | true =>
      cases body with
      | ioErr msg => simp [fetch_ticker, hn]
      | got b =>
        cases b with
        | invalid msg => simp [fetch_ticker, hn]
        | arr items => cases items <;> simp [fetch_ticker, hn]

/-- With caching enabled, a present cache file with computable age below
the TTL whose content decodes is returned as-is: no fetch, no write. -/
theorem resolve_hit_aux (net : Net) (cacheDir name : String) (fs : FS)
    (entry : CacheEntry) (j : JsonObj) (c : Currency) (n : Nat)
    (hl : fsLookup fs (cachePath cacheDir name) = some entry)
    (hd : entry.data = FileData.text j)
    (hc : currencyFromJson j = some c)
    (he : entry.elapsed = some n)
    (hn : n < ttl) :
    resolve_ticker net cacheDir name true fs = ⟨RunResult.ok c, fs, []⟩ := by
  simp [resolve_ticker, hl, he, hd, hc, hn]

/-- Looking up the path just written finds the fresh serialized record. -/
theorem fsLookup_fsWrite (fs : FS) (p : String) (c : Currency) :
    fsLookup (fsWrite fs p c) p =
      some ⟨FileData.text (currencyToJson c), some 0⟩ := by
  induction fs with
  | nil => simp [fsWrite, fsLookup]
  | cons head rest ih =>
    obtain ⟨q, e⟩ := head
    by_cases h : q = p
    · simp [fsWrite, fsLookup, h]
    · simp [fsWrite, fsLookup, h, ih]

/-- C2: with a successful HTTP status, a body decoding to the empty JSON
array makes `fetch_ticker` panic at `tickers.remove(0)` (index out of
bounds) instead of returning a Decode error, while a body that is not
valid JSON is returned as an error as the claim states. -/
theorem c2_empty_array_panics :
    fetch_ticker netEmpty "bitcoin" none [] =
      ⟨RunResult.panicked, [], [baseUrl ++ "bitcoin"]⟩ ∧
    fetch_ticker netInvalid "bitcoin" none [] =
      ⟨RunResult.err "expected value", [], [baseUrl ++ "bitcoin"]⟩ :=
  ⟨rfl, rfl⟩

/-- C8: with caching disabled, resolution leaves every cache file
unchanged and consists of exactly one direct network request. -/
theorem c8_no_cache_touch_when_disabled (net : Net) (cacheDir name : String)
    (fs : FS) :
    (resolve_ticker net cacheDir name false fs).fs = fs ∧
    (resolve_ticker net cacheDir name false fs).calls = [baseUrl ++ name] := by
  have h1 : resolve_ticker net cacheDir name false fs =
      fetch_ticker net name none fs := rfl
  rw [h1]
  exact ⟨fetch_ticker_none_fs net name fs, fetch_ticker_calls net name none fs⟩

/-- C9: writing a record through the cache store and reading the same
path back decodes to a record equal to the original in every field. -/
theorem c9_cache_roundtrip (fs : FS) (p : String) (c : Currency) :
    (match fsLookup (fsWrite fs p c) p with
     | some ⟨FileData.text j, _⟩ => currencyFromJson j
     | _ => none) = some c := by
  rw [fsLookup_fsWrite]
  exact currencyFromJson_currencyToJson c

/-- C10: whenever `fetch_ticker` returns an error (transport failure,
non-success status, body read failure, or JSON decode failure), the
filesystem is unchanged: the cache write happens only after a record is
successfully obtained. -/
theorem c10_fetch_error_preserves_cache (net : Net) (name : String)
    (cf : Option String) (fs : FS) (e : String)
    (h : (fetch_ticker net name cf fs).result = RunResult.err e) :
    (fetch_ticker net name cf fs).fs = fs := by
  cases hn : net (baseUrl ++ name) with
  | transportErr msg => simp [fetch_ticker, hn]
  | resp isSuccess body =>
    cases isSuccess with
    | false => simp [fetch_ticker, hn]
    | true =>
      cases body with
      | ioErr msg => simp [fetch_ticker, hn]
      | got b =>
        cases b with
        | invalid msg => simp [fetch_ticker, hn]
        | arr items =>
          cases items with
          | nil => simp [fetch_ticker, hn] at h
          | cons t r => cases cf <;> simp [fetch_ticker, hn] at h

/-- C10 witness: a transport failure on a cache-backed fetch leaves the
existing cache entry intact. -/
theorem c10_fetch_error_preserves_cache_witness :
    (fetch_ticker netDown "bitcoin" (some (cachePath dir0 "bitcoin"))
      fsHit).result = RunResult.err "connection refused" ∧
    (fetch_ticker netDown "bitcoin" (some (cachePath dir0 "bitcoin"))
      fsHit).fs = fsHit :=
  ⟨rfl, c10_fetch_error_preserves_cache netDown "bitcoin"
    (some (cachePath dir0 "bitcoin")) fsHit "connection refused" rfl⟩

/-- C5: with caching enabled, when the cache file is present, its age is
computable and strictly below the 30-minute TTL, and its content decodes
to a record, resolution returns that record with zero network calls and
an unchanged filesystem. -/
theorem c5_fresh_cache_hit (net : Net) (cacheDir name : String) (fs : FS)
    (entry : CacheEntry) (j : JsonObj) (c : Currency) (n : Nat)
    (hl : fsLookup fs (cachePath cacheDir name) = some entry)
    (hd : entry.data = FileData.text j)
    (hc : currencyFromJson j = some c)
    (he : entry.elapsed = some n)
    (hn : n < ttl) :
    resolve_ticker net cacheDir name true fs = ⟨RunResult.ok c, fs, []⟩ :=
  resolve_hit_aux net cacheDir name fs entry j c n hl hd hc he hn

/-- C5 witness: a fresh valid bitcoin cache entry is served without the
network even when the network is down. -/
theorem c5_fresh_cache_hit_witness :
    fsLookup fsHit (cachePath dir0 "bitcoin") =
      some ⟨FileData.text (currencyToJson recA), some 0⟩ ∧
    (0 : Nat) < ttl ∧
    resolve_ticker netDown dir0 "bitcoin" true fsHit =
      ⟨RunResult.ok recA, fsHit, []⟩ :=
  ⟨rfl, by decide,
    c5_fresh_cache_hit netDown dir0 "bitcoin" fsHit
      ⟨FileData.text (currencyToJson recA), some 0⟩ (currencyToJson recA)
      recA 0 rfl rfl rfl rfl (by decide)⟩

/-- C3 counterexample: a corrupt cache file whose age is fresh (below the
TTL) makes resolution propagate the decode error with zero fetches and no
cache overwrite, contradicting "absent, corrupt, or stale performs
exactly one fetch and overwrites the cache". -/
theorem c3_corrupt_fresh_counterexample :
    (resolve_ticker netGood dir0 "bitcoin" true fsCorrupt).calls = [] ∧
    (resolve_ticker netGood dir0 "bitcoin" true fsCorrupt).result =
      RunResult.err "bad json" ∧
    (resolve_ticker netGood dir0 "bitcoin" true fsCorrupt).fs = fsCorrupt :=
  ⟨rfl, rfl, rfl⟩

/-- C3 amended: with caching enabled, when the cache file is absent, its
age computation fails, or its age is at least the TTL, and the network
returns a success decoding to a non-empty array, resolution performs
exactly one fetch, overwrites the cache file with the fetched record, and
returns it.  (A corrupt file that is still fresh instead propagates a
decode error without fetching.) -/
theorem c3_miss_refetches_and_overwrites (net : Net) (cacheDir name : String)
    (fs : FS) (c : Currency) (tail : List Currency)
    (hmiss : fsLookup fs (cachePath cacheDir name) = none ∨
      ∃ entry, fsLookup fs (cachePath cacheDir name) = some entry ∧
        (entry.elapsed = none ∨ ∃ n, entry.elapsed = some n ∧ ttl ≤ n))
    (hnet : net (baseUrl ++ name) =
      HttpResp.resp true (BodyRead.got (Body.arr (c :: tail)))) :
    resolve_ticker net cacheDir name true fs =
      ⟨RunResult.ok c, fsWrite fs (cachePath cacheDir name) c,
        [baseUrl ++ name]⟩ := by
  have hfetch : fetch_ticker net name (some (cachePath cacheDir name)) fs =
      ⟨RunResult.ok c, fsWrite fs (cachePath cacheDir name) c,
        [baseUrl ++ name]⟩ := by
    simp [fetch_ticker, hnet]
  rcases hmiss with hmiss | ⟨entry, hl, he⟩
  · simp [resolve_ticker, hmiss, hfetch]
  · rcases he with he | ⟨n, he, hn⟩
    · simp [resolve_ticker, hl, he, hfetch]
    · have hn' : ¬ n < ttl := not_lt.mpr hn
      simp [resolve_ticker, hl, he, hn', hfetch]

/-- C3 witness: with no cache file at all, resolution fetches once,
writes the record through, and returns it. -/
theorem c3_miss_refetches_and_overwrites_witness :
    fsLookup ([] : FS) (cachePath dir0 "bitcoin") = none ∧
    netGood (baseUrl ++ "bitcoin") =
      HttpResp.resp true (BodyRead.got (Body.arr [recB])) ∧
    resolve_ticker netGood dir0 "bitcoin" true [] =
      ⟨RunResult.ok recB, fsWrite [] (cachePath dir0 "bitcoin") recB,
        [baseUrl ++ "bitcoin"]⟩ :=
  ⟨rfl, rfl,
    c3_miss_refetches_and_overwrites netGood dir0 "bitcoin" [] recB []
      (Or.inl rfl) rfl⟩

/-- C4 counterexample: with a cache file whose modification time lies in
the future (age computation fails), resolution succeeds with a fetched
record, performs a network call and overwrites the cache — no
ClockSkew-style error reaches the caller, and the anomaly is coerced to a
cache miss, contradicting the claim. -/
theorem c4_future_mtime_counterexample :
    (resolve_ticker netGood dir0 "bitcoin" true fsSkew).result =
      RunResult.ok recB ∧
    (resolve_ticker netGood dir0 "bitcoin" true fsSkew).calls =
      [baseUrl ++ "bitcoin"] ∧
    (resolve_ticker netGood dir0 "bitcoin" true fsSkew).fs =
      fsWrite fsSkew (cachePath dir0 "bitcoin") recB :=
  ⟨rfl, rfl, rfl⟩

/-- C4 amended: when the filesystem reports a modification time in the
future for the cache file, resolution does not crash and does not
propagate an error for it: it silently treats the file as a cache miss,
behaving exactly as a write-through fetch. -/
theorem c4_future_mtime_treated_as_miss (net : Net) (cacheDir name : String)
    (fs : FS) (entry : CacheEntry)
    (hl : fsLookup fs (cachePath cacheDir name) = some entry)
    (he : entry.elapsed = none) :
    resolve_ticker net cacheDir name true fs =
      fetch_ticker net name (some (cachePath cacheDir name)) fs := by
  simp [resolve_ticker, hl, he]

/-- C4 witness: the future-mtime bitcoin entry resolves exactly as a
direct write-through fetch. -/
theorem c4_future_mtime_treated_as_miss_witness :
    fsLookup fsSkew (cachePath dir0 "bitcoin") =
      some ⟨FileData.text (currencyToJson recA), none⟩ ∧
    resolve_ticker netGood dir0 "bitcoin" true fsSkew =
      fetch_ticker netGood "bitcoin" (some (cachePath dir0 "bitcoin")) fsSkew :=
  ⟨rfl, c4_future_mtime_treated_as_miss netGood dir0 "bitcoin" fsSkew
    ⟨FileData.text (currencyToJson recA), none⟩ rfl rfl⟩

/-- The `short_name` substitution written with propositional equality. -/
theorem short_name_eq (name : String) :
    short_name name =
      if name = "ethereum" then "eth"
      else if name = "bitcoin" then "btc" else name := by
  unfold short_name
  by_cases h1 : name = "ethereum"
  · simp [h1]
  · by_cases h2 : name = "bitcoin" <;> simp [h1, h2]

/-- With the interval flag set, one loop-body step resolves with caching
disabled: the filesystem is untouched and exactly one direct network
request is made, whatever the network answers. -/
theorem renderAsset_interval_frame (net : Net) (cacheDir arg : String)
    (debug : Bool) (fs : FS) :
    (renderAsset net cacheDir arg true debug fs).fs = fs ∧
    (renderAsset net cacheDir arg true debug fs).calls = [baseUrl ++ arg] := by
  cases hn : net (baseUrl ++ arg) with
  | transportErr msg =>
    simp [renderAsset, print_ticker, resolve_ticker, fetch_ticker, hn]
  | resp isSuccess body =>
    cases isSuccess with
    | false =>
      simp [renderAsset, print_ticker, resolve_ticker, fetch_ticker, hn]
    | true =>
      cases body with
      | ioErr msg =>
        simp [renderAsset, print_ticker, resolve_ticker, fetch_ticker, hn]
      | got b =>
        cases b with
        | invalid msg =>
          simp [renderAsset, print_ticker, resolve_ticker, fetch_ticker, hn]
        | arr items =>
          cases items <;>
            simp [renderAsset, print_ticker, resolve_ticker, fetch_ticker, hn]

/-- C1 counterexample: with the interval flag set and a fresh valid cache
entry for bitcoin priced "1" while the network answers price "2", the
loop body fetches from the network and renders "btc:2 " (caching
disabled); with the flag clear it makes no network call and renders the
cached "btc:1 " (caching enabled) — the opposite of the claim in both
directions. -/
theorem c1_cache_flag_counterexample :
    (renderAsset netGood dir0 "bitcoin" true false fsHit).calls =
      [baseUrl ++ "bitcoin"] ∧
    (renderAsset netGood dir0 "bitcoin" true false fsHit).out = "btc:2 " ∧
    (renderAsset netGood dir0 "bitcoin" false false fsHit).calls = [] ∧
    (renderAsset netGood dir0 "bitcoin" false false fsHit).out = "btc:1 " :=
  ⟨rfl, rfl, rfl, rfl⟩

/-- C1 amended: the loop body invokes resolution with caching enabled
exactly when the interval flag is NOT set: under the interval flag every
step is a direct fetch (one network call, cache untouched), while a
single pass consults the cache (a fresh valid entry is rendered with zero
network calls and no filesystem change). -/
theorem c1_cache_iff_not_interval (net : Net) (cacheDir arg : String)
    (debug : Bool) (fs : FS) (entry : CacheEntry) (j : JsonObj)
    (c : Currency) (n : Nat)
    (hl : fsLookup fs (cachePath cacheDir arg) = some entry)
    (hd : entry.data = FileData.text j)
    (hc : currencyFromJson j = some c)
    (he : entry.elapsed = some n)
    (hn : n < ttl) :
    ((renderAsset net cacheDir arg true debug fs).fs = fs ∧
     (renderAsset net cacheDir arg true debug fs).calls = [baseUrl ++ arg]) ∧
    ((renderAsset net cacheDir arg false debug fs).fs = fs ∧
     (renderAsset net cacheDir arg false debug fs).calls = [] ∧
     (renderAsset net cacheDir arg false debug fs).out =
       short_name arg ++ ":" ++ c.price_usd.getD "null" ++ " ") := by
  refine ⟨renderAsset_interval_frame net cacheDir arg debug fs, ?_⟩
  have hres : resolve_ticker net cacheDir arg true fs =
      ⟨RunResult.ok c, fs, []⟩ :=
    resolve_hit_aux net cacheDir arg fs entry j c n hl hd hc he hn
  simp [renderAsset, print_ticker, hres]

/-- C1 witness: the counterexample fixture also discharges the amended
statement's hypotheses. -/
theorem c1_cache_iff_not_interval_witness :
    fsLookup fsHit (cachePath dir0 "bitcoin") =
      some ⟨FileData.text (currencyToJson recA), some 0⟩ ∧
    (0 : Nat) < ttl ∧
    (((renderAsset netGood dir0 "bitcoin" true false fsHit).fs = fsHit ∧
      (renderAsset netGood dir0 "bitcoin" true false fsHit).calls =
        [baseUrl ++ "bitcoin"]) ∧
     ((renderAsset netGood dir0 "bitcoin" false false fsHit).fs = fsHit ∧
      (renderAsset netGood dir0 "bitcoin" false false fsHit).calls = [] ∧
      (renderAsset netGood dir0 "bitcoin" false false fsHit).out =
        short_name "bitcoin" ++ ":" ++ recA.price_usd.getD "null" ++ " ")) :=
  ⟨rfl, by decide,
    c1_cache_iff_not_interval netGood dir0 "bitcoin" false fsHit
      ⟨FileData.text (currencyToJson recA), some 0⟩ (currencyToJson recA)
      recA 0 rfl rfl rfl rfl (by decide)⟩

/-- C6: when one asset's resolution fails with an error, the pass is not
aborted: that asset contributes the raw error detail (debug mode) or the
fixed placeholder "{asset}:error " (normal mode), and the remaining
assets are processed as usual. -/
theorem c6_error_isolated_per_asset (net : Net) (cacheDir arg : String)
    (tickers : List String) (interval debug : Bool) (fs : FS) (e : String)
    (h : (print_ticker net cacheDir arg (!interval) fs).result =
      RunResult.err e) :
    renderPass net cacheDir interval debug (arg :: tickers) fs =
      ⟨(renderPass net cacheDir interval debug tickers
          (print_ticker net cacheDir arg (!interval) fs).fs).result,
       (renderPass net cacheDir interval debug tickers
          (print_ticker net cacheDir arg (!interval) fs).fs).fs,
       (print_ticker net cacheDir arg (!interval) fs).calls ++
         (renderPass net cacheDir interval debug tickers
            (print_ticker net cacheDir arg (!interval) fs).fs).calls,
       (if debug then e ++ "\n" else arg ++ ":error ") ++
         (renderPass net cacheDir interval debug tickers
            (print_ticker net cacheDir arg (!interval) fs).fs).out⟩ := by
  cases hp : print_ticker net cacheDir arg (!interval) fs with
  | mk res fs' calls out =>
    rw [hp] at h
    simp only [RenderOut.result] at h
    subst h
    simp [renderPass, renderAsset, hp]

/-- C6 witness: a 404 on the only asset yields the placeholder token and
a normally completed pass. -/
theorem c6_error_isolated_per_asset_witness :
    (print_ticker net404 dir0 "unknowncoin123" (!true) ([] : FS)).result =
      RunResult.err "Ticker ID unknowncoin123 not valid." ∧
    renderPass net404 dir0 true false ["unknowncoin123"] [] =
      ⟨RunResult.ok (), [], [baseUrl ++ "unknowncoin123"],
        "unknowncoin123:error "⟩ :=
  ⟨rfl,
    c6_error_isolated_per_asset net404 dir0 "unknowncoin123" [] true false []
      "Ticker ID unknowncoin123 not valid." rfl⟩

/-- C7: every successfully resolved asset renders as
"{short}:{price} ": short is "eth" for "ethereum", "btc" for "bitcoin",
the identifier otherwise; price is the record's USD price string, or the
literal "null" when the field is absent. -/
theorem c7_render_token_format (net : Net) (cacheDir name : String)
    (cache : Bool) (fs : FS) (t : Currency)
    (h : (resolve_ticker net cacheDir name cache fs).result =
      RunResult.ok t) :
    (print_ticker net cacheDir name cache fs).out =
      (if name = "ethereum" then "eth"
       else if name = "bitcoin" then "btc" else name) ++ ":" ++
      (match t.price_usd with | some p => p | none => "null") ++ " " := by
  cases hr : resolve_ticker net cacheDir name cache fs with
  | mk res fs' calls =>
    rw [hr] at h
    simp only [FetchOut.result] at h
    subst h
    rw [show (print_ticker net cacheDir name cache fs).out =
        short_name name ++ ":" ++ t.price_usd.getD "null" ++ " " by
      simp [print_ticker, hr]]
    rw [short_name_eq]
    cases t.price_usd <;> rfl

/-- C7 witness: a fetched bitcoin record with price "2" renders as
"btc:2 ". -/
theorem c7_render_token_format_witness :
    (resolve_ticker netGood dir0 "bitcoin" false ([] : FS)).result =
      RunResult.ok recB ∧
    (print_ticker netGood dir0 "bitcoin" false []).out = "btc:2 " :=
  ⟨rfl, c7_render_token_format netGood dir0 "bitcoin" false [] recB rfl⟩

end Cryptoticker
